import Mathlib

/-!
Shallow embedding of the EmployeeWebApp front end (Dashboard, CreateEmployee,
EditEmployee React components). Each event handler of the source is translated
into a pure state-transition function; the network is modelled by passing the
response of each `fetch` call as an explicit argument, and the list of HTTP
requests a handler issues is returned alongside the new state. JavaScript
numbers are modelled as exact rationals plus a distinguished NaN value; the two
numeric coercions the source uses (`parseFloat`, `parseInt` with no radix
argument, on the decimal strings produced by `<input type="number">` fields)
and the date conversion `new Date(s).toISOString()` on `<input type="date">`
values are modelled below.
-/

namespace EmployeeWebApp

/-- A JavaScript number: either NaN (result of a failed numeric parse) or an
exact numeric value, modelled as a rational. -/
inductive JsNumber where
  | nan : JsNumber
  | num : ℚ → JsNumber
deriving DecidableEq, Repr

/-- A JSON value, as produced by `JSON.stringify` on the wire payloads the
source builds (only strings, numbers and null occur). -/
inductive JsonValue where
  | str : String → JsonValue
  | num : ℚ → JsonValue
  | null : JsonValue
deriving DecidableEq, Repr

/-- `JSON.stringify` serialises the JS number NaN as `null`. -/
def jsonOfNumber : JsNumber → JsonValue
  | JsNumber.nan => JsonValue.null
  | JsNumber.num q => JsonValue.num q

/-- HTTP method of a request issued through `fetch`. -/
inductive Method where
  | GET | POST | PATCH | DELETE
deriving DecidableEq, Repr

/-- An HTTP request issued through `fetch`: method, URL, and the JSON body
(an ordered field list, as `JSON.stringify` would emit it), when present. -/
structure Request where
  method : Method
  url : String
  body : Option (List (String × JsonValue))
deriving DecidableEq, Repr

/-- An employee record as held in the Dashboard `employees` array or injected
into the Editor via navigation state. Fields other than the server-assigned
`id` are optional, modelling JS objects on which a property may be absent or
undefined. -/
structure Employee where
  id : Int
  name : Option String
  dateOfJoining : Option String
  department : Option String
  salary : Option ℚ
  managerId : Option Int
  status : Option String
deriving DecidableEq, Repr

/-- A navigation performed through `useNavigate`; the edit-employee route
carries the selected record in the navigation state (the Record Transfer). -/
inductive NavTarget where
  | dashboard
  | createEmployee
  | editEmployee (employee : Employee)
deriving DecidableEq, Repr

/-- Outcome of a `fetch` call whose response body is not read: either a
transport-level rejection (the promise rejects, carrying an error message) or
a response with a status code. -/
inductive NetResult where
  | reject (reason : String)
  | response (status : Nat)
deriving DecidableEq, Repr

/-- Outcome of the list `fetch` on `/api/employees`: a transport rejection, or
a response with a status code and (when the status is read) the decoded JSON
array of employees. A rejection of `response.json()` is folded into the
transport-rejection case. -/
inductive ListFetchResult where
  | reject (reason : String)
  | response (status : Nat) (data : List Employee)
deriving DecidableEq, Repr

/-- The `Response.ok` getter of the Fetch API: status in the range 200-299. -/
def responseOk (status : Nat) : Bool :=
  decide (200 ≤ status ∧ status ≤ 299)

/-- Numeric value of a decimal digit character, `none` on any other char. -/
def charDigit (c : Char) : Option Nat :=
  if decide ('0' ≤ c ∧ c ≤ '9') then some (c.toNat - '0'.toNat) else none

/-- Split a character list into its longest prefix of decimal digits (as
values) and the rest. -/
def takeDigits : List Char → List Nat × List Char
  | [] => ([], [])
  | c :: cs =>
    match charDigit c with
    | some d =>
      let rest := takeDigits cs
      (d :: rest.1, rest.2)
    | none => ([], c :: cs)

/-- Value of a digit sequence read in base 10. -/
def digitsVal (ds : List Nat) : Nat :=
  ds.foldl (fun acc d => 10 * acc + d) 0

/-- Characters `parseFloat` and `parseInt` skip as leading whitespace. -/
def isJsSpace (c : Char) : Bool :=
  decide (c = ' ' ∨ c = '\t' ∨ c = '\n' ∨ c = '\r')

/-- JavaScript `parseFloat` on the decimal strings an `<input type="number">`
field produces: optional sign, integer digits, optional fractional digits;
NaN when no digits are found. (Exponent suffixes and special literals like
`Infinity`, which such inputs never produce, are not modelled.) -/
def jsParseFloat (s : String) : JsNumber :=
  let cs := s.data.dropWhile isJsSpace
  let signed : Int × List Char :=
    match cs with
    | '-' :: rest => (-1, rest)
    | '+' :: rest => (1, rest)
    | _ => (1, cs)
  let intPart := takeDigits signed.2
  let fracDigits : List Nat :=
    match intPart.2 with
    | '.' :: rest => (takeDigits rest).1
    | _ => []
  if intPart.1 = [] ∧ fracDigits = [] then JsNumber.nan
  else
    JsNumber.num (mkRat
      (signed.1 * (digitsVal intPart.1 * 10 ^ fracDigits.length + digitsVal fracDigits : Nat))
      (10 ^ fracDigits.length))

/-- JavaScript `parseInt` with no radix argument on the decimal strings an
`<input type="number">` field produces: optional sign, longest digit prefix;
NaN when no digits are found. (The `0x` hexadecimal prefix, which such inputs
never produce, is not modelled.) -/
def jsParseInt (s : String) : JsNumber :=
  let cs := s.data.dropWhile isJsSpace
  let signed : Int × List Char :=
    match cs with
    | '-' :: rest => (-1, rest)
    | '+' :: rest => (1, rest)
    | _ => (1, cs)
  let ds := (takeDigits signed.2).1
  if ds = [] then JsNumber.nan
  else JsNumber.num (mkRat (signed.1 * (digitsVal ds : Nat)) 1)

/-- Number of days of a month, with the Gregorian leap-year rule. -/
def daysInMonth (year month : Nat) : Nat :=
  if month = 2 then
    if year % 4 = 0 ∧ (year % 100 ≠ 0 ∨ year % 400 = 0) then 29 else 28
  else if month = 4 ∨ month = 6 ∨ month = 9 ∨ month = 11 then 30
  else 31

/-- Whether `new Date(s)` yields a valid date for the strings an
`<input type="date">` field can hold: exactly `YYYY-MM-DD` with an in-range
month and day. Anything else (in particular the empty string) yields an
Invalid Date, on which `toISOString` throws. -/
def isValidDateString (s : String) : Bool :=
  match s.data with
  | [y1, y2, y3, y4, '-', m1, m2, '-', d1, d2] =>
    match charDigit y1, charDigit y2, charDigit y3, charDigit y4,
          charDigit m1, charDigit m2, charDigit d1, charDigit d2 with
    | some a, some b, some c, some d, some e, some f, some g, some h =>
      let year := ((a * 10 + b) * 10 + c) * 10 + d
      let month := e * 10 + f
      let day := g * 10 + h
      decide (1 ≤ month ∧ month ≤ 12 ∧ 1 ≤ day ∧ day ≤ daysInMonth year month)
    | _, _, _, _, _, _, _, _ => false
  | _ => false

/-- The conversion `new Date(s).toISOString()` on a date-input value: a plain
`YYYY-MM-DD` string parses as UTC midnight, so the ISO timestamp appends
`T00:00:00.000Z`; on an invalid date `toISOString` throws a RangeError whose
message is `Invalid time value`, modelled by `none`. -/
def jsDateToISO (s : String) : Option String :=
  if isValidDateString s then some (s ++ "T00:00:00.000Z") else none

/-- JavaScript `||` on an optional string with a string default: undefined and
the empty string (both falsy) fall back to the default. -/
def strOrDefault : Option String → String → String
  | none, d => d
  | some s, d => if s = "" then d else s

/-- Rendering of a JS number by `Number.prototype.toString`: integers render
with no fractional part; the decimal rendering of non-integers is modelled by
the canonical rational print, which is nonempty like the JS rendering. -/
def jsNumberToString (q : ℚ) : String :=
  if q.den = 1 then toString q.num else toString q

/-! ### Dashboard (Directory) -/

/-- Local state of the Dashboard component, one field per `useState` hook. -/
structure DashboardState where
  employees : List Employee
  loading : Bool
  error : Option String
  deleteLoading : Bool
  showSuccessModal : Bool
deriving DecidableEq, Repr

/-- The initial values of the Dashboard `useState` hooks. -/
def initialDashboardState : DashboardState :=
  { employees := [], loading := true, error := none,
    deleteLoading := false, showSuccessModal := false }

/-- The list request the Dashboard issues: `fetch("/api/employees")`. -/
def listRequest : Request :=
  { method := Method.GET, url := "/api/employees", body := none }

/-- The `fetchEmployees` handler: sets loading and clears the error, awaits
the list fetch, throws on `!response.ok` embedding the status, stores the
decoded array on success, and renders any caught error with the
`Failed to fetch employees:` prefix; `finally` clears loading. -/
def fetchEmployees (s : DashboardState) (r : ListFetchResult) : DashboardState :=
  let s0 := { s with loading := true, error := none }
  match r with
  | ListFetchResult.reject reason =>
    { s0 with loading := false, error := some ("Failed to fetch employees: " ++ reason) }
  | ListFetchResult.response status data =>
    if responseOk status then
      { s0 with loading := false, employees := data }
    else
      { s0 with loading := false,
                error := some ("Failed to fetch employees: " ++ ("HTTP error! status: " ++ toString status)) }

/-- The failure reason a list fetch surfaces, `none` on success: the transport
rejection reason, or the thrown `HTTP error! status:` message on a non-2xx
status. -/
def listFetchFailure : ListFetchResult → Option String
  | ListFetchResult.reject reason => some reason
  | ListFetchResult.response status _ =>
    if responseOk status then none
    else some ("HTTP error! status: " ++ toString status)

/-- Derived screen status of the Dashboard, per the rendering conditions:
the loading indicator, the error message, or the loaded content. -/
inductive ScreenStatus where
  | loading | loaded | error
deriving DecidableEq, Repr

/-- Status the Dashboard render reflects: `loading` while the fetch is in
flight, `error` when an error message is set, `loaded` otherwise. -/
def dashboardStatus (s : DashboardState) : ScreenStatus :=
  if s.loading then ScreenStatus.loading
  else if s.error.isSome then ScreenStatus.error
  else ScreenStatus.loaded

/-- Render condition of the employee table:
`!loading && !error && employees.length > 0`. -/
def tableRendered (s : DashboardState) : Bool :=
  !s.loading && s.error.isNone && decide (s.employees.length > 0)

/-- Render condition of the `No data available` empty state:
`!loading && !error && employees.length === 0`. -/
def noDataRendered (s : DashboardState) : Bool :=
  !s.loading && s.error.isNone && decide (s.employees.length = 0)

/-- Render condition of the inline error message: `error` is set. -/
def errorRendered (s : DashboardState) : Bool :=
  s.error.isSome

/-- The `handleEditEmployee` handler: looks the id up in the current
`employees` snapshot with `find`; when found, navigates to the edit route
passing the record in navigation state; otherwise does nothing. It performs
no fetch, so its request list is always empty. -/
def handleEditEmployee (employees : List Employee) (employeeId : Int) :
    Option NavTarget × List Request :=
  match employees.find? (fun emp => emp.id == employeeId) with
  | some employee => (some (NavTarget.editEmployee employee), [])
  | none => (none, [])

/-- The DELETE request issued by `handleDeleteEmployee` for a given id. -/
def deleteRequest (employeeId : Int) : Request :=
  { method := Method.DELETE, url := "/api/employees/" ++ toString employeeId, body := none }

/-- The `handleDeleteEmployee` handler: sets the delete-busy flag and clears
the error, issues one DELETE; on status 204 shows the success modal and
re-runs `fetchEmployees` (one GET); on any other status or a transport
rejection renders the `Failed to delete employee.` message; `finally` clears
the busy flag. Returns the new state and the requests issued. -/
def handleDeleteEmployee (s : DashboardState) (employeeId : Int)
    (deleteResult : NetResult) (refetch : ListFetchResult) :
    DashboardState × List Request :=
  let s0 := { s with deleteLoading := true, error := none }
  match deleteResult with
  | NetResult.reject reason =>
    ({ s0 with deleteLoading := false,
               error := some ("Failed to delete employee. Please try again. " ++ reason) },
     [deleteRequest employeeId])
  | NetResult.response status =>
    if status = 204 then
      let s1 := fetchEmployees { s0 with showSuccessModal := true } refetch
      ({ s1 with deleteLoading := false }, [deleteRequest employeeId, listRequest])
    else
      ({ s0 with deleteLoading := false,
                 error := some ("Failed to delete employee. Please try again. " ++ ("HTTP error! status: " ++ toString status)) },
       [deleteRequest employeeId])

/-- The failure reason a mutating call surfaces given the success status the
handler checks for, `none` on success: the transport rejection reason, or the
thrown `HTTP error! status:` message on any other status. -/
def netFailure (r : NetResult) (successStatus : Nat) : Option String :=
  match r with
  | NetResult.reject reason => some reason
  | NetResult.response status =>
    if status = successStatus then none
    else some ("HTTP error! status: " ++ toString status)

/-- Disabled flag of the Delete button rendered in a row:
`disabled={deleteLoading}` — the single screen-wide busy flag, not keyed by
the row id. -/
def deleteButtonDisabled (s : DashboardState) (rowId : Int) : Bool :=
  s.deleteLoading

/-- The Dashboard state right after a Delete starts (`setDeleteLoading(true)`
and `setError(null)` have run) and before its response settles. -/
def deleteInFlight (s : DashboardState) : DashboardState :=
  { s with deleteLoading := true, error := none }

/-! ### CreateEmployee (Creator) -/

/-- The Creator form draft, one string per controlled input. -/
structure CreateFormData where
  name : String
  dateOfJoining : String
  department : String
  salary : String
  managerId : String
  status : String
deriving DecidableEq, Repr

/-- The initial Creator draft: empty fields, `status` pre-seeded to ACTIVE. -/
def initialCreateFormData : CreateFormData :=
  { name := "", dateOfJoining := "", department := "",
    salary := "", managerId := "", status := "ACTIVE" }

/-- Local state of the CreateEmployee component. -/
structure CreateState where
  formData : CreateFormData
  loading : Bool
  error : Option String
  showSuccessModal : Bool
deriving DecidableEq, Repr

/-- The `submitData` object the Creator builds before its POST:
`dateOfJoining` through `new Date(...).toISOString()` (which throws on an
invalid date, the `Except.error` case), `salary` through `parseFloat`,
`managerId` through `parseInt`, `name`, `department` and `status` verbatim. -/
def buildCreateSubmitData (f : CreateFormData) :
    Except String (List (String × JsonValue)) :=
  match jsDateToISO f.dateOfJoining with
  | none => Except.error "Invalid time value"
  | some iso =>
    Except.ok [("name", JsonValue.str f.name),
      ("dateOfJoining", JsonValue.str iso),
      ("department", JsonValue.str f.department),
      ("salary", jsonOfNumber (jsParseFloat f.salary)),
      ("managerId", jsonOfNumber (jsParseInt f.managerId)),
      ("status", JsonValue.str f.status)]

/-- The POST request the Creator issues: `fetch("/api/employees")` with
method POST and the JSON body. -/
def createRequest (body : List (String × JsonValue)) : Request :=
  { method := Method.POST, url := "/api/employees", body := some body }

/-- The Creator `handleSubmit` handler: sets loading, clears the error, builds
`submitData` inside the `try` (so a throwing date conversion is caught before
any fetch), issues the POST, shows the success modal on status 201, and on any
throw renders the `Failed to create employee.` message; `finally` clears
loading. The draft `formData` is never written by this handler. Returns the
new state and the requests issued. -/
def handleCreateSubmit (st : CreateState) (result : NetResult) :
    CreateState × List Request :=
  let st0 := { st with loading := true, error := none }
  match buildCreateSubmitData st.formData with
  | Except.error msg =>
    ({ st0 with loading := false,
                error := some ("Failed to create employee. Please try again. " ++ msg) }, [])
  | Except.ok payload =>
    match result with
    | NetResult.reject reason =>
      ({ st0 with loading := false,
                  error := some ("Failed to create employee. Please try again. " ++ reason) },
       [createRequest payload])
    | NetResult.response status =>
      if status = 201 then
        ({ st0 with loading := false, showSuccessModal := true }, [createRequest payload])
      else
        ({ st0 with loading := false,
                    error := some ("Failed to create employee. Please try again. " ++ ("HTTP error! status: " ++ toString status)) },
         [createRequest payload])

/-- Browser constraint validation of the Creator form: every input and select
in the form carries the `required` attribute, so submitting the form reaches
`handleSubmit` only when all six fields are non-empty. -/
def requiredFieldsFilled (f : CreateFormData) : Bool :=
  f.name != "" && f.dateOfJoining != "" && f.department != "" &&
    f.salary != "" && f.managerId != "" && f.status != ""

/-- A Creator form submission as the browser performs it: constraint
validation of the `required` inputs runs first, and only when it passes is
`handleSubmit` invoked; otherwise nothing happens and no request is issued. -/
def createFormSubmit (st : CreateState) (result : NetResult) :
    CreateState × List Request :=
  if requiredFieldsFilled st.formData then handleCreateSubmit st result
  else (st, [])

/-! ### EditEmployee (Editor) -/

/-- The Editor form draft: the editable fields only (no id, no
dateOfJoining). -/
structure EditFormData where
  name : String
  department : String
  salary : String
  managerId : String
  status : String
deriving DecidableEq, Repr

/-- The initial Editor draft, before the pre-fill effect runs. -/
def initialEditFormData : EditFormData :=
  { name := "", department := "", salary := "", managerId := "", status := "ACTIVE" }

/-- Local state of the EditEmployee component. -/
structure EditState where
  formData : EditFormData
  loading : Bool
  error : Option String
  showSuccessModal : Bool
deriving DecidableEq, Repr

/-- The pre-fill of the Editor form from the injected record: each field is
`record.field || ""` (undefined or empty falls back to the empty string), the
numeric fields through `?.toString()`, and `status` falls back to ACTIVE. -/
def editPrefillForm (e : Employee) : EditFormData :=
  { name := strOrDefault e.name ""
    department := strOrDefault e.department ""
    salary := strOrDefault (e.salary.map jsNumberToString) ""
    managerId := strOrDefault (e.managerId.map (fun m => toString m)) ""
    status := strOrDefault e.status "ACTIVE" }

/-- Effect of entering the Editor (the pre-fill `useEffect`): with an injected
record it seeds the form from it; with none it navigates back to the
Dashboard. Neither path issues a request. -/
def editEntryEffect (employeeData : Option Employee) (st : EditState) :
    EditState × Option NavTarget × List Request :=
  match employeeData with
  | some e => ({ st with formData := editPrefillForm e }, none, [])
  | none => (st, some NavTarget.dashboard, [])

/-- What the Editor renders: the no-data terminal view when no record was
injected, the edit form otherwise. -/
inductive EditView where
  | noDataView
  | formView (employee : Employee)
deriving DecidableEq, Repr

/-- The Editor render guard: `if (!employeeData)` renders the no-data view. -/
def editEmployeeRender (employeeData : Option Employee) : EditView :=
  match employeeData with
  | none => EditView.noDataView
  | some e => EditView.formView e

/-- Navigations reachable from each Editor view by a button press: the
no-data view has a single button, whose handler is `handleCancel`, i.e.
`navigate("/")`; the form view offers Cancel with the same handler. -/
def editViewActions : EditView → List NavTarget
  | EditView.noDataView => [NavTarget.dashboard]
  | EditView.formView _ => [NavTarget.dashboard]

/-- The `submitData` object the Editor builds before its PATCH: exactly the
editable fields, with `salary` through `parseFloat` and `managerId` through
`parseInt`; no `id` or `dateOfJoining` entry is ever built. -/
def buildEditSubmitData (f : EditFormData) : List (String × JsonValue) :=
  [("name", JsonValue.str f.name),
   ("department", JsonValue.str f.department),
   ("salary", jsonOfNumber (jsParseFloat f.salary)),
   ("managerId", jsonOfNumber (jsParseInt f.managerId)),
   ("status", JsonValue.str f.status)]

/-- The PATCH request the Editor issues, scoped to the injected record id. -/
def editRequest (employeeId : Int) (body : List (String × JsonValue)) : Request :=
  { method := Method.PATCH, url := "/api/employees/" ++ toString employeeId,
    body := some body }

/-- The Editor `handleSubmit` handler: sets loading, clears the error, issues
one PATCH to `/api/employees/` followed by the injected record id, shows the
success modal on status 200, and on any throw renders the
`Failed to edit employee.` message; `finally` clears loading. Returns the new
state and the requests issued. -/
def handleEditSubmit (employeeData : Employee) (st : EditState)
    (result : NetResult) : EditState × List Request :=
  let req := editRequest employeeData.id (buildEditSubmitData st.formData)
  let st0 := { st with loading := true, error := none }
  match result with
  | NetResult.reject reason =>
    ({ st0 with loading := false,
                error := some ("Failed to edit employee. Please try again. " ++ reason) }, [req])
  | NetResult.response status =>
    if status = 200 then
      ({ st0 with loading := false, showSuccessModal := true }, [req])
    else
      ({ st0 with loading := false,
                  error := some ("Failed to edit employee. Please try again. " ++ ("HTTP error! status: " ++ toString status)) },
       [req])

/-! ### Concrete records used by witnesses -/

/-- A concrete employee record with id 1. -/
def empOne : Employee :=
  { id := 1, name := some "John Doe", dateOfJoining := some "2024-01-15",
    department := some "IT", salary := some (mkRat 50000 1), managerId := some 2,
    status := some "ACTIVE" }

/-- A concrete employee record with id 2. -/
def empTwo : Employee :=
  { id := 2, name := some "Jane Smith", dateOfJoining := some "2023-05-10",
    department := some "HR", salary := some (mkRat 60000 1), managerId := some 3,
    status := some "NOT_ACTIVE" }

/-- A concrete record with no `managerId` and no `status` property. -/
def empNoManager : Employee :=
  { id := 7, name := some "Sam Lee", dateOfJoining := some "2022-11-01",
    department := some "Finance", salary := none, managerId := none,
    status := none }

/-- A Dashboard state holding two loaded records. -/
def loadedTwoState : DashboardState :=
  { employees := [empOne, empTwo], loading := false, error := none,
    deleteLoading := false, showSuccessModal := false }

/-- The initial values of the EditEmployee `useState` hooks. -/
def initialEditState : EditState :=
  { formData := initialEditFormData, loading := false, error := none,
    showSuccessModal := false }

/-- A complete Creator draft, salary typed as `75000.50`. -/
def draftComplete : CreateFormData :=
  { name := "New Employee", dateOfJoining := "2025-08-22", department := "HR",
    salary := "75000.50", managerId := "2", status := "ACTIVE" }

/-- A Creator draft with the department select left unset. -/
def draftNoDepartment : CreateFormData :=
  { name := "New Employee", dateOfJoining := "2025-08-22", department := "",
    salary := "60000", managerId := "2", status := "ACTIVE" }

/-- A Creator draft whose date field holds the empty string. -/
def draftBadDate : CreateFormData :=
  { name := "Test Employee", dateOfJoining := "", department := "IT",
    salary := "50000", managerId := "1", status := "ACTIVE" }

/-- Creator state holding the complete draft. -/
def createStateComplete : CreateState :=
  { formData := draftComplete, loading := false, error := none,
    showSuccessModal := false }

/-- Creator state holding the draft with no department. -/
def createStateNoDepartment : CreateState :=
  { formData := draftNoDepartment, loading := false, error := none,
    showSuccessModal := false }

/-- Creator state holding the draft with the empty date. -/
def createStateBadDate : CreateState :=
  { formData := draftBadDate, loading := false, error := none,
    showSuccessModal := false }

/-! ### Theorems -/

/-- Helper: the list fetch never touches the success-modal flag. -/
theorem fetchEmployees_showSuccessModal (s : DashboardState) (r : ListFetchResult) :
    (fetchEmployees s r).showSuccessModal = s.showSuccessModal := by
  cases r with
  | reject reason => rfl
  | response status data =>
    simp only [fetchEmployees]
    split <;> rfl

/-- C1: a list fetch that succeeds (2xx) ends with the records equal to the
fetched array and the Dashboard in the loaded state, rendering the table
exactly when the array is nonempty and the distinct empty state exactly when
it is empty; a fetch that fails (transport rejection or non-2xx status) ends
in the error state with a message embedding the underlying failure reason,
the table not rendered and the records untouched. -/
theorem dashboard_list_fetch_spec (s : DashboardState) (r : ListFetchResult) :
    (∀ status data, r = ListFetchResult.response status data → responseOk status = true →
        (fetchEmployees s r).employees = data
      ∧ dashboardStatus (fetchEmployees s r) = ScreenStatus.loaded
      ∧ (tableRendered (fetchEmployees s r) = true ↔ data ≠ [])
      ∧ (noDataRendered (fetchEmployees s r) = true ↔ data = [])
      ∧ errorRendered (fetchEmployees s r) = false)
  ∧ (∀ reason, listFetchFailure r = some reason →
        (fetchEmployees s r).error = some ("Failed to fetch employees: " ++ reason)
      ∧ dashboardStatus (fetchEmployees s r) = ScreenStatus.error
      ∧ errorRendered (fetchEmployees s r) = true
      ∧ tableRendered (fetchEmployees s r) = false
      ∧ (fetchEmployees s r).employees = s.employees) := by
  constructor
  · rintro status data rfl hok
    simp [fetchEmployees, hok, dashboardStatus, tableRendered, noDataRendered,
      errorRendered, List.length_pos, List.length_eq_zero]
  · intro reason hfail
    cases r with
    | reject msg =>
      simp only [listFetchFailure, Option.some.injEq] at hfail
      subst hfail
      simp [fetchEmployees, dashboardStatus, tableRendered, errorRendered]
    | response status data =>
      cases hok : responseOk status with
      | true => simp [listFetchFailure, hok] at hfail
      | false =>
        simp only [listFetchFailure, hok, Bool.false_eq_true, if_false,
          Option.some.injEq] at hfail
        subst hfail
        simp [fetchEmployees, hok, dashboardStatus, tableRendered, errorRendered]

/-- Witness for C1: a successful fetch of one record, and a rejected fetch. -/
theorem dashboard_list_fetch_spec_witness :
    (fetchEmployees initialDashboardState (ListFetchResult.response 200 [empOne])).employees = [empOne]
  ∧ (fetchEmployees initialDashboardState (ListFetchResult.reject "Server down")).error =
      some "Failed to fetch employees: Server down" := by
  constructor
  · exact ((dashboard_list_fetch_spec initialDashboardState
      (ListFetchResult.response 200 [empOne])).1 200 [empOne] rfl (by decide)).1
  · exact ((dashboard_list_fetch_spec initialDashboardState
      (ListFetchResult.reject "Server down")).2 "Server down" rfl).1

/-- C2: every Delete(id) issues exactly one DELETE to `/api/employees/` with
the id appended; on status 204 the success modal is shown and exactly one
list re-fetch (GET) is issued; on any failure (transport rejection or other
status) an inline message embedding the failure reason is set and the records
array is left unchanged, with no re-fetch. -/
theorem dashboard_delete_spec (s : DashboardState) (employeeId : Int)
    (deleteResult : NetResult) (refetch : ListFetchResult) :
    ((handleDeleteEmployee s employeeId deleteResult refetch).2.filter
        (fun req => decide (req.method = Method.DELETE))) = [deleteRequest employeeId]
  ∧ (deleteResult = NetResult.response 204 →
        (handleDeleteEmployee s employeeId deleteResult refetch).1.showSuccessModal = true
      ∧ ((handleDeleteEmployee s employeeId deleteResult refetch).2.filter
            (fun req => decide (req.method = Method.GET))) = [listRequest])
  ∧ (∀ reason, netFailure deleteResult 204 = some reason →
        (handleDeleteEmployee s employeeId deleteResult refetch).1.error =
          some ("Failed to delete employee. Please try again. " ++ reason)
      ∧ (handleDeleteEmployee s employeeId deleteResult refetch).1.employees = s.employees
      ∧ ((handleDeleteEmployee s employeeId deleteResult refetch).2.filter
            (fun req => decide (req.method = Method.GET))) = []) := by
  refine ⟨?_, ?_, ?_⟩
  · cases deleteResult with
    | reject reason => simp [handleDeleteEmployee, deleteRequest]
    | response status =>
      by_cases h204 : status = 204 <;>
        simp [handleDeleteEmployee, h204, deleteRequest, listRequest]
  · rintro rfl
    constructor
    · show (fetchEmployees
        { s with deleteLoading := true, error := none, showSuccessModal := true }
        refetch).showSuccessModal = true
      rw [fetchEmployees_showSuccessModal]
    · simp [handleDeleteEmployee, deleteRequest, listRequest]
  · intro reason hfail
    cases deleteResult with
    | reject msg =>
      simp only [netFailure, Option.some.injEq] at hfail
      subst hfail
      simp [handleDeleteEmployee, deleteRequest]
    | response status =>
      by_cases h204 : status = 204
      · simp [netFailure, h204] at hfail
      · simp only [netFailure, h204, if_false, Option.some.injEq] at hfail
        subst hfail
        simp [handleDeleteEmployee, h204, deleteRequest]

/-- Witness for C2: a delete of id 1 that returns 204 followed by a clean
re-fetch, and a delete of id 2 that is rejected by the transport. -/
theorem dashboard_delete_spec_witness :
    (handleDeleteEmployee loadedTwoState 1 (NetResult.response 204)
        (ListFetchResult.response 200 [empTwo])).1.showSuccessModal = true
  ∧ (handleDeleteEmployee loadedTwoState 2 (NetResult.reject "Network error")
        (ListFetchResult.response 200 [])).1.employees = loadedTwoState.employees := by
  constructor
  · exact ((dashboard_delete_spec loadedTwoState 1 (NetResult.response 204)
      (ListFetchResult.response 200 [empTwo])).2.1 rfl).1
  · exact ((dashboard_delete_spec loadedTwoState 2 (NetResult.reject "Network error")
      (ListFetchResult.response 200 [])).2.2 "Network error" rfl).2.1

/-- C3 counterexample: the claim that while a delete is in flight only the
busy row's Delete control is disabled is false — the component keeps one
screen-wide `deleteLoading` flag and every row's Delete button carries
`disabled={deleteLoading}`, so a different row's control is disabled too. -/
theorem dashboard_delete_busy_counterexample :
    ¬ (∀ (s : DashboardState) (inFlightId rowId : Int), rowId ≠ inFlightId →
          deleteButtonDisabled (deleteInFlight s) rowId = false) := by
  intro h
  have h2 := h loadedTwoState 1 2 (by decide)
  simp [deleteButtonDisabled, deleteInFlight] at h2

/-- C3 amended: while a delete is in flight on the Directory, the Delete
control of every row is disabled, the other rows included — the busy flag is
screen-wide, not keyed by the id being deleted. -/
theorem dashboard_delete_disables_every_row (s : DashboardState) (rowId : Int) :
    deleteButtonDisabled (deleteInFlight s) rowId = true := rfl

/-- C4: Select-for-edit looks the id up in the currently held records
snapshot without issuing any request; when no record with that id is present
the handler yields no navigation (a silent no-op, the Editor is never
reached), and any navigation it does yield carries a record of the snapshot
bearing exactly that id into the Editor. -/
theorem dashboard_edit_select_spec (employees : List Employee) (employeeId : Int) :
    (handleEditEmployee employees employeeId).2 = []
  ∧ ((handleEditEmployee employees employeeId).1 = none ↔
      ∀ e ∈ employees, e.id ≠ employeeId)
  ∧ (∀ e, (handleEditEmployee employees employeeId).1 =
        some (NavTarget.editEmployee e) →
      e ∈ employees ∧ e.id = employeeId) := by
  refine ⟨?_, ?_, ?_⟩ <;> unfold handleEditEmployee
  · cases employees.find? (fun emp => emp.id == employeeId) <;> rfl
  · cases h : employees.find? (fun emp => emp.id == employeeId) with
    | none =>
      exact ⟨fun _ e he => by simpa using List.find?_eq_none.mp h e he,
        fun _ => rfl⟩
    | some a =>
      constructor
      · intro hcontra
        exact Option.noConfusion hcontra
      · intro hall
        exact absurd (by simpa using List.find?_some h)
          (hall a (List.mem_of_find?_eq_some h))
  · intro e hnav
    cases h : employees.find? (fun emp => emp.id == employeeId) with
    | none => rw [h] at hnav; exact Option.noConfusion hnav
    | some a =>
      rw [h] at hnav
      have ha : a = e := by
        have h2 := Option.some.inj hnav
        injection h2
      subst ha
      exact ⟨List.mem_of_find?_eq_some h, by simpa using List.find?_some h⟩

/-- Witness for C4: with records 1 and 2 held, selecting id 5 is a no-op,
selecting id 2 hands over the snapshot record with id 2, and no request is
issued. -/
theorem dashboard_edit_select_spec_witness :
    (handleEditEmployee [empOne, empTwo] 5).1 = none
  ∧ (empTwo ∈ [empOne, empTwo] ∧ empTwo.id = 2)
  ∧ (handleEditEmployee [empOne, empTwo] 2).2 = [] := by
  refine ⟨?_, ?_, ?_⟩
  · exact (dashboard_edit_select_spec [empOne, empTwo] 5).2.1.mpr (by decide)
  · exact (dashboard_edit_select_spec [empOne, empTwo] 2).2.2 empTwo (by decide)
  · exact (dashboard_edit_select_spec [empOne, empTwo] 2).1

/-- C5: a Creator form submission with any required field empty is blocked by
the required-attribute constraint validation before the submit handler runs:
the state is unchanged and no request (in particular no POST) is issued. -/
theorem create_required_fields_block (st : CreateState) (result : NetResult)
    (h : requiredFieldsFilled st.formData = false) :
    createFormSubmit st result = (st, []) := by
  simp [createFormSubmit, h]

/-- Witness for C5: a submit with the department select unset issues
nothing. -/
theorem create_required_fields_block_witness :
    requiredFieldsFilled draftNoDepartment = false
  ∧ createFormSubmit createStateNoDepartment (NetResult.response 201) =
      (createStateNoDepartment, []) :=
  ⟨by decide,
    create_required_fields_block createStateNoDepartment (NetResult.response 201)
      (by decide)⟩

/-- C6: a Creator submission with all required fields populated and a
well-formed date sends one POST to /api/employees whose payload carries
`dateOfJoining` as the full ISO timestamp of the drafted plain date,
`salary` as the parseFloat of the salary string, `managerId` as the parseInt
of the managerId string, and `name`, `department`, `status` verbatim. -/
theorem create_submit_payload_spec (st : CreateState) (result : NetResult)
    (hreq : requiredFieldsFilled st.formData = true)
    (hdate : isValidDateString st.formData.dateOfJoining = true) :
    (createFormSubmit st result).2 =
      [createRequest
        [("name", JsonValue.str st.formData.name),
         ("dateOfJoining", JsonValue.str (st.formData.dateOfJoining ++ "T00:00:00.000Z")),
         ("department", JsonValue.str st.formData.department),
         ("salary", jsonOfNumber (jsParseFloat st.formData.salary)),
         ("managerId", jsonOfNumber (jsParseInt st.formData.managerId)),
         ("status", JsonValue.str st.formData.status)]] := by
  simp only [createFormSubmit, hreq, if_true]
  cases result with
  | reject reason =>
    simp [handleCreateSubmit, buildCreateSubmitData, jsDateToISO, hdate, createRequest]
  | response status =>
    by_cases h201 : status = 201 <;>
      simp [handleCreateSubmit, buildCreateSubmitData, jsDateToISO, hdate, h201,
        createRequest]

/-- Witness for C6: the complete draft with salary typed `75000.50` produces
the POST payload with the ISO timestamp and the numeric coercions, the typed
salary parsing to the number 75000.5. -/
theorem create_submit_payload_spec_witness :
    jsParseFloat "75000.50" = JsNumber.num (mkRat 150001 2)
  ∧ jsParseInt "2" = JsNumber.num (mkRat 2 1)
  ∧ (createFormSubmit createStateComplete (NetResult.response 201)).2 =
      [createRequest
        [("name", JsonValue.str "New Employee"),
         ("dateOfJoining", JsonValue.str ("2025-08-22" ++ "T00:00:00.000Z")),
         ("department", JsonValue.str "HR"),
         ("salary", jsonOfNumber (jsParseFloat "75000.50")),
         ("managerId", jsonOfNumber (jsParseInt "2")),
         ("status", JsonValue.str "ACTIVE")]] :=
  ⟨by decide, by decide,
    create_submit_payload_spec createStateComplete (NetResult.response 201)
      (by decide) (by decide)⟩

/-- C7: every Editor submit issues exactly one PATCH addressed to
/api/employees/ followed by the injected record id, whose payload holds
exactly the editable fields in order — name, department, salary (parseFloat),
managerId (parseInt), status — and never an `id` or `dateOfJoining` key. -/
theorem edit_submit_payload_spec (employeeData : Employee) (st : EditState)
    (result : NetResult) :
    (handleEditSubmit employeeData st result).2 =
      [editRequest employeeData.id (buildEditSubmitData st.formData)]
  ∧ (buildEditSubmitData st.formData).map Prod.fst =
      ["name", "department", "salary", "managerId", "status"]
  ∧ "id" ∉ (buildEditSubmitData st.formData).map Prod.fst
  ∧ "dateOfJoining" ∉ (buildEditSubmitData st.formData).map Prod.fst
  ∧ (editRequest employeeData.id (buildEditSubmitData st.formData)).url =
      "/api/employees/" ++ toString employeeData.id
  ∧ (editRequest employeeData.id (buildEditSubmitData st.formData)).method =
      Method.PATCH := by
  refine ⟨?_, by simp [buildEditSubmitData], ?_, ?_, rfl, rfl⟩
  · cases result with
    | reject reason => rfl
    | response status =>
      by_cases h200 : status = 200 <;> simp [handleEditSubmit, h200]
  · simp [buildEditSubmitData]
  · simp [buildEditSubmitData]

/-- C8: the Editor pre-fill seeds every form field from the injected record;
a field that is absent or undefined falls back to the empty string — in
particular a missing managerId gives an empty manager field, never the text
`undefined` or `NaN` — except status, which falls back to ACTIVE. -/
theorem edit_prefill_spec (e : Employee) (st : EditState) :
    (editEntryEffect (some e) st).1.formData = editPrefillForm e
  ∧ (e.name = none → (editPrefillForm e).name = "")
  ∧ (∀ n, e.name = some n → n ≠ "" → (editPrefillForm e).name = n)
  ∧ (e.department = none → (editPrefillForm e).department = "")
  ∧ (∀ d, e.department = some d → d ≠ "" → (editPrefillForm e).department = d)
  ∧ (e.salary = none → (editPrefillForm e).salary = "")
  ∧ (∀ q, e.salary = some q → jsNumberToString q ≠ "" →
      (editPrefillForm e).salary = jsNumberToString q)
  ∧ (e.managerId = none →
        (editPrefillForm e).managerId = ""
      ∧ (editPrefillForm e).managerId ≠ "undefined"
      ∧ (editPrefillForm e).managerId ≠ "NaN")
  ∧ (∀ m, e.managerId = some m → toString m ≠ "" →
      (editPrefillForm e).managerId = toString m)
  ∧ (e.status = none → (editPrefillForm e).status = "ACTIVE") := by
  refine ⟨rfl, ?_, ?_, ?_, ?_, ?_, ?_, ?_, ?_, ?_⟩
  · intro h; simp [editPrefillForm, strOrDefault, h]
  · intro n h hn; simp [editPrefillForm, strOrDefault, h, hn]
  · intro h; simp [editPrefillForm, strOrDefault, h]
  · intro d h hd; simp [editPrefillForm, strOrDefault, h, hd]
  · intro h; simp [editPrefillForm, strOrDefault, h]
  · intro q h hq; simp [editPrefillForm, strOrDefault, h, hq]
  · intro h
    refine ⟨?_, ?_, ?_⟩ <;> simp [editPrefillForm, strOrDefault, h]
  · intro m h hm; simp [editPrefillForm, strOrDefault, h, hm]
  · intro h; simp [editPrefillForm, strOrDefault, h]

/-- Witness for C8: a record with no managerId and no status pre-fills an
empty manager field (not `undefined` or `NaN`), status ACTIVE, and the
present name verbatim. -/
theorem edit_prefill_spec_witness :
    (editPrefillForm empNoManager).managerId = ""
  ∧ (editPrefillForm empNoManager).managerId ≠ "undefined"
  ∧ (editPrefillForm empNoManager).managerId ≠ "NaN"
  ∧ (editPrefillForm empNoManager).status = "ACTIVE"
  ∧ (editPrefillForm empNoManager).name = "Sam Lee" := by
  obtain ⟨-, -, hname, -, -, -, -, hmid, -, hstat⟩ :=
    edit_prefill_spec empNoManager initialEditState
  obtain ⟨h1, h2, h3⟩ := hmid rfl
  exact ⟨h1, h2, h3, hstat rfl, hname "Sam Lee" rfl (by decide)⟩

/-- C9: entering the Editor without an injected record issues no network
request, only navigates back to the Directory in its entry effect, renders
the no-data terminal view, and the only action that view offers navigates
back to the Directory. -/
theorem edit_no_record_spec (st : EditState) :
    editEntryEffect none st = (st, some NavTarget.dashboard, [])
  ∧ editEmployeeRender none = EditView.noDataView
  ∧ editViewActions EditView.noDataView = [NavTarget.dashboard] :=
  ⟨rfl, rfl, rfl⟩

/-- C10: a Creator submit whose drafted dateOfJoining does not parse as a
date (the empty string included) throws in the payload conversion before the
fetch is reached: no request is issued, the screen enters the error state
with a message embedding the thrown `Invalid time value` reason, and the
draft fields are left unchanged. -/
theorem create_submit_invalid_date_spec (st : CreateState) (result : NetResult)
    (hdate : isValidDateString st.formData.dateOfJoining = false) :
    (handleCreateSubmit st result).2 = []
  ∧ (handleCreateSubmit st result).1.error =
      some ("Failed to create employee. Please try again. " ++ "Invalid time value")
  ∧ (handleCreateSubmit st result).1.formData = st.formData
  ∧ (handleCreateSubmit st result).1.loading = false := by
  refine ⟨?_, ?_, ?_, ?_⟩ <;>
    simp [handleCreateSubmit, buildCreateSubmitData, jsDateToISO, hdate]

/-- Witness for C10: a submit with the date field holding the empty string
issues no request and sets the error message. -/
theorem create_submit_invalid_date_spec_witness :
    isValidDateString "" = false
  ∧ (handleCreateSubmit createStateBadDate (NetResult.response 201)).2 = []
  ∧ (handleCreateSubmit createStateBadDate (NetResult.response 201)).1.formData =
      draftBadDate := by
  have h := create_submit_invalid_date_spec createStateBadDate
    (NetResult.response 201) (by decide)
  exact ⟨by decide, h.1, h.2.2.1⟩

end EmployeeWebApp
